import Mathlib

/-!
Shallow embedding of the FastMCP demo servers (stdio and HTTP variants) and
their shared tool library, together with proofs of the specification claims.

Python dictionaries returned by tool handlers are modelled as association
lists of string keys and JSON-like values (`Resp`); insertion order of the
Python dict literals is preserved.  Per-call context data (request id,
clock readings) and the pseudo-random source are gathered in an `Env`
record, so every handler is a pure function of its environment and inputs.
-/

/-- JSON-like values appearing in tool responses.  Python ints are `jint`,
floats are modelled as rationals (`jrat`), and nested dicts keep their
literal key order. -/
inductive JVal where
  | jnull : JVal
  | jbool : Bool → JVal
  | jint : Int → JVal
  | jrat : ℚ → JVal
  | jstr : String → JVal
  | jlist : List JVal → JVal
  | jdict : List (String × JVal) → JVal

/-- The Python `type(x).__name__` of a value, as reported by `calculate`. -/
def JVal.typeName : JVal → String
  | .jnull => "NoneType"
  | .jbool _ => "bool"
  | .jint _ => "int"
  | .jrat _ => "float"
  | .jstr _ => "str"
  | .jlist _ => "list"
  | .jdict _ => "dict"

/-- A tool/resource response: a Python dict in literal key order. -/
abbrev Resp := List (String × JVal)

/-- Per-call environment: the FastMCP `Context` request id, the clock
readings a handler takes (`datetime.datetime.now()` in its various
formats), the entropy stream behind the `random` module, and the
formatted date used by the data generator's `dates` type. -/
structure Env where
  requestId : String
  now : String
  nowTs : ℚ
  nowFmt : String
  entropy : Nat → Nat
  dayStr : Nat → String

/-- Python `random.randint(a, b)` on naturals: models its contract of
returning a value in `[a, b]`, driven by one entropy draw `e`. -/
def pyRandintN (e a b : Nat) : Nat := a + e % (b - a + 1)

/-- Python `random.randint(a, b)` on integers (used where bounds can be
negative, e.g. temperatures). -/
def pyRandintZ (e : Nat) (a b : Int) : Int := a + (e : Int) % (b - a + 1)

/-- Python `random.choice(l)` driven by one entropy draw. -/
def pyChoice {α : Type} (e : Nat) (l : List α) (dflt : α) : α :=
  l.getD (e % l.length) dflt

/-- Python `round(random.uniform(0, 100), 2)`: a rational in `[0, 100]`
with two decimal places. -/
def pyUniform2 (e : Nat) : ℚ := ((e % 10001 : Nat) : ℚ) / 100

/-- ASCII whitespace recognised by Python `str.strip` / `str.split`
(the repository only handles ASCII text). -/
def pyIsSpace (c : Char) : Bool :=
  c == ' ' || c == '\t' || c == '\n' || c == '\x0d' || c == '\x0b' || c == '\x0c'

/-- Python `str.upper`, ASCII fragment: per-character uppercase map. -/
def pyUpper (s : String) : String := ⟨s.toList.map Char.toUpper⟩

/-- Python `str.lower`, ASCII fragment. -/
def pyLower (s : String) : String := ⟨s.toList.map Char.toLower⟩

/-- Python `str.strip` on a character list: drop leading and trailing
whitespace. -/
def pyStripList (l : List Char) : List Char :=
  ((l.dropWhile pyIsSpace).reverse.dropWhile pyIsSpace).reverse

/-- Python `str.strip`. -/
def pyStrip (s : String) : String := ⟨pyStripList s.toList⟩

/-- Python `text[::-1]`. -/
def pyReverse (s : String) : String := ⟨s.toList.reverse⟩

/-- Python `str.title`, ASCII fragment: uppercase each letter following a
non-letter, lowercase the rest.  The boolean argument records whether the
previous character was alphabetic. -/
def pyTitleList : Bool → List Char → List Char
  | _, [] => []
  | prev, c :: cs =>
    (if prev then c.toLower else c.toUpper) :: pyTitleList c.isAlpha cs

/-- Python `str.title`. -/
def pyTitle (s : String) : String := ⟨pyTitleList false s.toList⟩

/-- Python `str.capitalize`, ASCII fragment. -/
def pyCapitalize (s : String) : String :=
  match s.toList with
  | [] => ""
  | c :: cs => ⟨c.toUpper :: cs.map Char.toLower⟩

/-- Python `str.replace` (all occurrences). -/
def pyReplace (s tgt rep : String) : String := s.replace tgt rep

/-- Python `str.split()` with no separator: split on whitespace runs,
discarding empty pieces. -/
def pySplitWs (s : String) : List String :=
  ((s.toList.splitOnP pyIsSpace).filter (fun w => !w.isEmpty)).map (⟨·⟩)

/-- Python `str.splitlines`, newline-only fragment: split on `\n`,
dropping the trailing empty piece. -/
def pySplitlines (s : String) : List String :=
  let parts := s.toList.splitOnP (· == '\n')
  (if parts.getLast? = some [] then parts.dropLast else parts).map (⟨·⟩)

/-!
Model of the host language's expression evaluator (`eval`), as used by the
math tool.  Modelled from the spec: the repository delegates evaluation to
"a generic arithmetic evaluator" with standard operator precedence, so we
embed the arithmetic fragment of Python `eval`: integer and decimal
literals, `+ - * /`, unary minus and parentheses, with `/` as true
division producing a float and raising `ZeroDivisionError` on zero.
Allowed characters outside this fragment (stray commas, dots or `e`)
produce an evaluation error, which `calculate` catches and maps to its
error envelope.
-/

/-- A Python number: `int` or `float` (floats modelled as rationals). -/
inductive PyNum where
  | pint : Int → PyNum
  | pfloat : ℚ → PyNum

/-- The rational magnitude of a Python number. -/
def PyNum.toQ : PyNum → ℚ
  | .pint n => (n : ℚ)
  | .pfloat q => q

/-- Python `+` on numbers: int stays int, any float makes a float. -/
def pyAdd : PyNum → PyNum → PyNum
  | .pint a, .pint b => .pint (a + b)
  | a, b => .pfloat (a.toQ + b.toQ)

/-- Python binary `-` on numbers. -/
def pySub : PyNum → PyNum → PyNum
  | .pint a, .pint b => .pint (a - b)
  | a, b => .pfloat (a.toQ - b.toQ)

/-- Python `*` on numbers. -/
def pyMul : PyNum → PyNum → PyNum
  | .pint a, .pint b => .pint (a * b)
  | a, b => .pfloat (a.toQ * b.toQ)

/-- Python unary `-`. -/
def pyNeg : PyNum → PyNum
  | .pint a => .pint (-a)
  | .pfloat a => .pfloat (-a)

/-- Python `/`: true division, always a float, error on zero divisor. -/
def pyDiv (a b : PyNum) : Except String PyNum :=
  if b.toQ = 0 then .error "division by zero"
  else .ok (.pfloat (a.toQ / b.toQ))

/-- Tokens of the arithmetic fragment. -/
inductive Tok where
  | num : PyNum → Tok
  | plus | minus | star | slash | lparen | rparen

/-- Numeric value of a digit list (most significant first). -/
def natOfDigits (ds : List Char) : Nat :=
  ds.foldl (fun a c => 10 * a + (c.toNat - 48)) 0

/-- Lex one numeric literal: digits, optional fraction, optional
exponent.  Returns the token and the remaining characters. -/
def lexNum (cs : List Char) : Except String (Tok × List Char) :=
  let (ds, r1) := cs.span Char.isDigit
  let (dot, fs, r2) :=
    match r1 with
    | '.' :: r => let (fs, r2) := r.span Char.isDigit; (true, fs, r2)
    | _ => (false, [], r1)
  if ds.isEmpty && fs.isEmpty then .error "invalid decimal literal"
  else
    match r2 with
    | 'e' :: r3 =>
      let (sgn, r4) :=
        match r3 with
        | '+' :: r => ((1 : Int), r)
        | '-' :: r => ((-1 : Int), r)
        | _ => ((1 : Int), r3)
      let (es, r5) := r4.span Char.isDigit
      if es.isEmpty then .error "invalid decimal literal"
      else
        let mant : ℚ := (natOfDigits ds : ℚ) + (natOfDigits fs : ℚ) / (10 : ℚ) ^ fs.length
        .ok (.num (.pfloat (mant * (10 : ℚ) ^ (sgn * (natOfDigits es : Int)))), r5)
    | _ =>
      if dot then
        .ok (.num (.pfloat ((natOfDigits ds : ℚ) + (natOfDigits fs : ℚ) / (10 : ℚ) ^ fs.length)), r2)
      else .ok (.num (.pint (natOfDigits ds : Int)), r2)

/-- Tokenizer for the arithmetic fragment (fuel-driven). -/
def tokenize : Nat → List Char → Except String (List Tok)
  | 0, _ => .error "tokenizer out of fuel"
  | _, [] => .ok []
  | fuel + 1, c :: cs =>
    if c == ' ' then tokenize fuel cs
    else if c == '+' then (tokenize fuel cs).map (Tok.plus :: ·)
    else if c == '-' then (tokenize fuel cs).map (Tok.minus :: ·)
    else if c == '*' then (tokenize fuel cs).map (Tok.star :: ·)
    else if c == '/' then (tokenize fuel cs).map (Tok.slash :: ·)
    else if c == '(' then (tokenize fuel cs).map (Tok.lparen :: ·)
    else if c == ')' then (tokenize fuel cs).map (Tok.rparen :: ·)
    else if c.isDigit || c == '.' then
      match lexNum (c :: cs) with
      | .error e => .error e
      | .ok (t, rest) =>
        if rest.length < (c :: cs).length then (tokenize fuel rest).map (t :: ·)
        else .error "tokenizer stuck"
    else .error "invalid syntax"

mutual

/-- Parse an additive expression (lowest precedence). -/
def parseExprF : Nat → List Tok → Except String (PyNum × List Tok)
  | 0, _ => .error "expression too deep"
  | fuel + 1, toks =>
    match parseTermF fuel toks with
    | .error e => .error e
    | .ok (v, r) => parseAddLoop fuel v r

/-- Left-associative chain of `+` and `-`. -/
def parseAddLoop : Nat → PyNum → List Tok → Except String (PyNum × List Tok)
  | 0, _, _ => .error "expression too deep"
  | fuel + 1, acc, toks =>
    match toks with
    | .plus :: rest =>
      match parseTermF fuel rest with
      | .error e => .error e
      | .ok (v, r) => parseAddLoop fuel (pyAdd acc v) r
    | .minus :: rest =>
      match parseTermF fuel rest with
      | .error e => .error e
      | .ok (v, r) => parseAddLoop fuel (pySub acc v) r
    | _ => .ok (acc, toks)

/-- Parse a multiplicative term. -/
def parseTermF : Nat → List Tok → Except String (PyNum × List Tok)
  | 0, _ => .error "expression too deep"
  | fuel + 1, toks =>
    match parseAtomF fuel toks with
    | .error e => .error e
    | .ok (v, r) => parseMulLoop fuel v r

/-- Left-associative chain of `*` and `/`. -/
def parseMulLoop : Nat → PyNum → List Tok → Except String (PyNum × List Tok)
  | 0, _, _ => .error "expression too deep"
  | fuel + 1, acc, toks =>
    match toks with
    | .star :: rest =>
      match parseAtomF fuel rest with
      | .error e => .error e
      | .ok (v, r) => parseMulLoop fuel (pyMul acc v) r
    | .slash :: rest =>
      match parseAtomF fuel rest with
      | .error e => .error e
      | .ok (v, r) =>
        match pyDiv acc v with
        | .error e => .error e
        | .ok w => parseMulLoop fuel w r
    | _ => .ok (acc, toks)

/-- Parse an atom: literal, unary minus, or parenthesised expression. -/
def parseAtomF : Nat → List Tok → Except String (PyNum × List Tok)
  | 0, _ => .error "expression too deep"
  | fuel + 1, toks =>
    match toks with
    | .minus :: rest =>
      match parseAtomF fuel rest with
      | .error e => .error e
      | .ok (v, r) => .ok (pyNeg v, r)
    | .num v :: rest => .ok (v, rest)
    | .lparen :: rest =>
      match parseExprF fuel rest with
      | .error e => .error e
      | .ok (v, r) =>
        match r with
        | .rparen :: r2 => .ok (v, r2)
        | _ => .error "invalid syntax"
    | _ => .error "invalid syntax"

end

/-- A Python number as a JSON-like value. -/
def PyNum.toJVal : PyNum → JVal
  | .pint n => .jint n
  | .pfloat q => .jrat q

/-- Model of `eval` on the arithmetic fragment: tokenize, parse with
standard precedence, require all input consumed. -/
def pyEval (s : String) : Except String JVal :=
  match tokenize (s.length + 1) s.toList with
  | .error e => .error e
  | .ok toks =>
    match parseExprF (4 * toks.length + 4) toks with
    | .error e => .error e
    | .ok (v, []) => .ok v.toJVal
    | .ok (_, _ :: _) => .error "invalid syntax"

/-!  The shared tool library (`mcp_shared/tools.py`) and the per-server
tools the claims reference. -/

/-- The allow-list of the math tool (`tools.py`, `calculate`). -/
def allowedChars : List Char := "0123456789+-*/().,e ".toList

/-- `calculate` from `mcp_shared/tools.py`: validate against the
allow-list, then evaluate; evaluation failures are caught and mapped to
an error envelope.  The evaluator is a parameter so that independence
from it can be stated. -/
def calculate (evalFn : String → Except String JVal) (env : Env)
    (expression : String) : Resp :=
  if !(expression.toList.all (fun c => allowedChars.contains c)) then
    [("error", .jstr "Expression contains invalid characters"),
     ("expression", .jstr expression),
     ("success", .jbool false)]
  else
    match evalFn expression with
    | .ok result =>
      [("expression", .jstr expression),
       ("result", result),
       ("type", .jstr result.typeName),
       ("success", .jbool true),
       ("timestamp", .jstr env.now),
       ("request_id", .jstr env.requestId)]
    | .error e =>
      [("error", .jstr e),
       ("expression", .jstr expression),
       ("success", .jbool false),
       ("request_id", .jstr env.requestId)]

/-- Python truthiness of an optional string argument (`None` and `""` are
falsy), as used by `string_operations` for `target`/`replacement`. -/
def truthy : Option String → Bool
  | none => false
  | some s => !s.isEmpty

/-- The seven always-present entries of `string_operations`' dispatch
table. -/
def stringOpsBase (text : String) : List (String × JVal) :=
  [("upper", .jstr (pyUpper text)),
   ("lower", .jstr (pyLower text)),
   ("title", .jstr (pyTitle text)),
   ("reverse", .jstr (pyReverse text)),
   ("length", .jint (text.toList.length : Int)),
   ("strip", .jstr (pyStrip text)),
   ("capitalize", .jstr (pyCapitalize text))]

/-- The dispatch table of `string_operations`: the seven base operations,
plus `replace` exactly when it was requested with truthy arguments. -/
def stringOpsTable (text operation : String)
    (target replacement : Option String) : List (String × JVal) :=
  if operation == "replace" && truthy target && truthy replacement then
    stringOpsBase text
      ++ [("replace", .jstr (pyReplace text (target.getD "") (replacement.getD "")))]
  else stringOpsBase text

/-- The base operation names of `string_operations`. -/
def stringBaseKeys : List String :=
  ["upper", "lower", "title", "reverse", "length", "strip", "capitalize"]

/-- `string_operations` from `mcp_shared/tools.py`. -/
def string_operations (env : Env) (text operation : String)
    (target replacement : Option String) : Resp :=
  let operations := stringOpsTable text operation target replacement
  match List.lookup operation operations with
  | none =>
    [("error", .jstr ("Unknown operation: " ++ operation)),
     ("available_operations", .jlist (operations.map (fun kv => .jstr kv.1))),
     ("success", .jbool false)]
  | some result =>
    [("original_text", .jstr text),
     ("operation", .jstr operation),
     ("result", result),
     ("success", .jbool true),
     ("timestamp", .jstr env.now),
     ("request_id", .jstr env.requestId)]

/-- The type names of the data generator's dispatch table, in literal
order. -/
def genKeys : List String :=
  ["numbers", "floats", "strings", "booleans", "dates", "colors"]

/-- The colour pool of the data generator. -/
def genColors : List String :=
  ["red", "blue", "green", "yellow", "purple", "orange"]

/-- The items produced by `generate_data`'s generator lambdas for a known
type; an unknown type produces nothing (its lambda is never called). -/
def genItems (env : Env) (data_type : String) (count : Nat) : List JVal :=
  if data_type == "numbers" then
    (List.range count).map (fun i => .jint (pyRandintN (env.entropy i) 1 1000 : Nat))
  else if data_type == "floats" then
    (List.range count).map (fun i => .jrat (pyUniform2 (env.entropy i)))
  else if data_type == "strings" then
    (List.range count).map (fun i =>
      .jstr ("item_" ++ toString i ++ "_" ++ toString (pyRandintN (env.entropy i) 100 999)))
  else if data_type == "booleans" then
    (List.range count).map (fun i => .jbool (env.entropy i % 2 == 0))
  else if data_type == "dates" then
    (List.range count).map (fun i => .jstr (env.dayStr (pyRandintN (env.entropy i) 0 365)))
  else if data_type == "colors" then
    (List.range count).map (fun i => .jstr (pyChoice (env.entropy i) genColors "red"))
  else []

/-- `generate_data` from `mcp_shared/tools.py`: the requested count is
clamped to 100 before the generators run. -/
def generate_data (env : Env) (data_type : String) (count0 : Int) : Resp :=
  let count : Int := if count0 > 100 then 100 else count0
  if !(genKeys.contains data_type) then
    [("error", .jstr ("Unknown data type: " ++ data_type)),
     ("available_types", .jlist (genKeys.map (.jstr ·))),
     ("success", .jbool false)]
  else
    let data := genItems env data_type count.toNat
    [("data_type", .jstr data_type),
     ("count", .jint (data.length : Int)),
     ("data", .jlist data),
     ("success", .jbool true),
     ("timestamp", .jstr env.now),
     ("request_id", .jstr env.requestId)]

/-- Python `min` of a non-empty list (the `[]` case is unreachable in
`math_operations`, which rejects empty input first). -/
def pyMin : List ℚ → ℚ
  | [] => 0
  | x :: xs => xs.foldl min x

/-- Python `max` of a non-empty list. -/
def pyMax : List ℚ → ℚ
  | [] => 0
  | x :: xs => xs.foldl max x

/-- Python `sorted`: ascending stable sort. -/
def pySorted (l : List ℚ) : List ℚ := l.mergeSort (fun a b => decide (a ≤ b))

/-- The eagerly-built statistics table of `math_operations`
(`stdio-server/main.py`). -/
def mathOpsTable (numbers : List ℚ) : List (String × JVal) :=
  [("sum", .jrat numbers.sum),
   ("average", .jrat (numbers.sum / (numbers.length : ℚ))),
   ("min", .jrat (pyMin numbers)),
   ("max", .jrat (pyMax numbers)),
   ("median", .jrat ((pySorted numbers).getD (numbers.length / 2) 0)),
   ("count", .jint (numbers.length : Int))]

/-- The operation names of `math_operations`, in literal order. -/
def mathKeys : List String := ["sum", "average", "min", "max", "median", "count"]

/-- `math_operations` from `stdio-server/main.py`. -/
def math_operations (env : Env) (numbers : List ℚ) (operation : String) : Resp :=
  if numbers.isEmpty then
    [("error", .jstr "No numbers provided"), ("success", .jbool false)]
  else
    let operations := mathOpsTable numbers
    match List.lookup operation operations with
    | none =>
      [("error", .jstr ("Unknown operation: " ++ operation)),
       ("available_operations", .jlist (operations.map (fun kv => .jstr kv.1))),
       ("success", .jbool false)]
    | some result =>
      [("operation", .jstr operation),
       ("result", result),
       ("input_count", .jint (numbers.length : Int)),
       ("success", .jbool true),
       ("timestamp", .jstr env.now),
       ("request_id", .jstr env.requestId)]

/-- The `basic` analysis profile of `text_analyzer`
(`stdio-server/main.py`). -/
def basicAnalysis (text : String) : List (String × JVal) :=
  let words := pySplitWs text
  [("character_count", .jint (text.toList.length : Int)),
   ("word_count", .jint (words.length : Int)),
   ("line_count", .jint ((pySplitlines text).length : Int)),
   ("average_word_length",
     if words.length > 0 then
       .jrat ((words.map (fun w => (w.toList.length : ℚ))).sum / (words.length : ℚ))
     else .jint 0)]

/-- The `detailed` analysis profile of `text_analyzer`. -/
def detailedAnalysis (text : String) : List (String × JVal) :=
  [("character_count", .jint (text.toList.length : Int)),
   ("word_count", .jint ((pySplitWs text).length : Int)),
   ("line_count", .jint ((pySplitlines text).length : Int)),
   ("unique_words", .jint ((pySplitWs (pyLower text)).dedup.length : Int)),
   ("sentences",
     .jint ((((text.splitOn ".").filter (fun t => !(pyStrip t).isEmpty)).length : Int))),
   ("paragraphs",
     .jint ((((text.splitOn "\n\n").filter (fun t => !(pyStrip t).isEmpty)).length : Int)))]

/-- The dispatch table of `text_analyzer`. -/
def analysesTable (text : String) : List (String × JVal) :=
  [("basic", .jdict (basicAnalysis text)),
   ("detailed", .jdict (detailedAnalysis text))]

/-- The analysis type names of `text_analyzer`. -/
def analysesKeys : List String := ["basic", "detailed"]

/-- `text_analyzer` from `stdio-server/main.py`. -/
def text_analyzer (env : Env) (text analysis_type : String) : Resp :=
  let analyses := analysesTable text
  match List.lookup analysis_type analyses with
  | none =>
    [("error", .jstr ("Unknown analysis type: " ++ analysis_type)),
     ("available_types", .jlist (analyses.map (fun kv => .jstr kv.1))),
     ("success", .jbool false)]
  | some result =>
    [("analysis_type", .jstr analysis_type),
     ("results", result),
     ("text_preview",
       .jstr (if text.toList.length > 100 then String.mk (text.toList.take 100) ++ "..." else text)),
     ("success", .jbool true),
     ("timestamp", .jstr env.now),
     ("request_id", .jstr env.requestId)]

/-- `get_current_time` from `stdio-server/main.py`.  Its response carries
`request_id` but, notably, no `success` key. -/
def get_current_time (env : Env) (timezone : String) : Resp :=
  [("current_time", .jstr env.now),
   ("timezone", .jstr timezone),
   ("timestamp", .jrat env.nowTs),
   ("formatted", .jstr env.nowFmt),
   ("request_id", .jstr env.requestId)]

/-- The condition pool of `get_weather` (`http-server/main.py`). -/
def weatherConditions : List String :=
  ["sunny", "cloudy", "rainy", "snowy", "foggy", "windy"]

/-- `get_weather` from `http-server/main.py`: unknown units silently fall
back to celsius; the response has no `success` key. -/
def get_weather (env : Env) (location units0 : String) : Resp :=
  let tempC := pyRandintZ (env.entropy 0) (-10) 35
  let tempF := pyRandintZ (env.entropy 1) 14 95
  let temperatures : List (String × Int) := [("celsius", tempC), ("fahrenheit", tempF)]
  let units := if (List.lookup units0 temperatures).isSome then units0 else "celsius"
  let temp := (List.lookup units temperatures).getD tempC
  [("location", .jstr location),
   ("temperature", .jint temp),
   ("units", .jstr units),
   ("condition", .jstr (pyChoice (env.entropy 2) weatherConditions "sunny")),
   ("humidity", .jint (pyRandintZ (env.entropy 3) 30 90)),
   ("wind_speed", .jint (pyRandintZ (env.entropy 4) 0 30)),
   ("forecast", .jdict
     [("today", .jstr (pyChoice (env.entropy 5) weatherConditions "sunny"
         ++ ", " ++ toString temp ++ "°")),
      ("tomorrow", .jstr (pyChoice (env.entropy 6) weatherConditions "sunny"
         ++ ", " ++ toString (if units == "celsius" then pyRandintZ (env.entropy 7) (-10) 35
                              else pyRandintZ (env.entropy 7) 14 95) ++ "°"))]),
   ("last_updated", .jstr env.now),
   ("request_id", .jstr env.requestId)]

/-- An inbound HTTP request, as surfaced by `ctx.get_http_request()`. -/
structure HttpRequest where
  method : String
  url : String
  path : String
  queryParams : List (String × String)
  headers : List (String × String)
  clientHost : Option String

/-- Does `needle` occur as a contiguous substring of `hay`? -/
def listContainsSub (needle hay : List Char) : Bool :=
  hay.tails.any (fun t => needle.isPrefixOf t)

/-- Does `needle` occur as a substring of the string `hay`? -/
def strContainsSub (needle hay : String) : Bool :=
  listContainsSub needle.toList hay.toList

/-- The sensitive-header test of `inspect_request`: the lowercased header
name contains `authorization`, `cookie` or `token`. -/
def sensitiveHeader (k : String) : Bool :=
  strContainsSub "authorization" (pyLower k)
    || strContainsSub "cookie" (pyLower k)
    || strContainsSub "token" (pyLower k)

/-- `headers.get(k, dflt)` on the raw (unfiltered) header dict. -/
def headerGet (headers : List (String × String)) (k dflt : String) : String :=
  (List.lookup k headers).getD dflt

/-- `inspect_request` from `http-server/main.py`.  `none` models
`ctx.get_http_request()` raising (the `except` path); the success path
returns the filtered view and, notably, no `success` key. -/
def inspect_request (env : Env) (req : Option HttpRequest) : Resp :=
  match req with
  | none =>
    [("error", .jstr "Request inspection failed: no active HTTP request"),
     ("success", .jbool false),
     ("request_id", .jstr env.requestId)]
  | some r =>
    let headers := r.headers
    let filtered := headers.filter (fun kv => !sensitiveHeader kv.1)
    [("method", .jstr r.method),
     ("url", .jstr r.url),
     ("path", .jstr r.path),
     ("query_params", .jdict (r.queryParams.map (fun kv => (kv.1, .jstr kv.2)))),
     ("headers", .jdict (filtered.map (fun kv => (kv.1, .jstr kv.2)))),
     ("client_host", .jstr (r.clientHost.getD "unknown")),
     ("content_type", .jstr (headerGet headers "content-type" "unknown")),
     ("user_agent", .jstr (headerGet headers "user-agent" "unknown")),
     ("request_id", .jstr env.requestId),
     ("timestamp", .jstr env.now)]

/-- The sample-data type names of the stdio server's
`sample_data_resource`. -/
def sampleGenKeys : List String := ["users", "tasks", "logs"]

/-- The items of `sample_data_resource` for a known type
(`stdio-server/main.py`); iteration is over `range(1, 6)`. -/
def sampleItems (env : Env) (data_type : String) : List JVal :=
  if data_type == "users" then
    (List.range 5).map (fun i =>
      .jdict [("id", .jint ((i + 1 : Nat) : Int)),
              ("name", .jstr ("User" ++ toString (i + 1))),
              ("email", .jstr ("user" ++ toString (i + 1) ++ "@example.com"))])
  else if data_type == "tasks" then
    (List.range 5).map (fun i =>
      .jdict [("id", .jint ((i + 1 : Nat) : Int)),
              ("title", .jstr ("Task " ++ toString (i + 1))),
              ("completed", .jbool (env.entropy i % 2 == 0))])
  else if data_type == "logs" then
    (List.range 5).map (fun i =>
      .jdict [("timestamp", .jstr env.now),
              ("level", .jstr (pyChoice (env.entropy i) ["INFO", "WARN", "ERROR"] "INFO")),
              ("message", .jstr ("Log entry " ++ toString (i + 1)))])
  else []

/-- `sample_data_resource` from `stdio-server/main.py`.  Neither branch
carries a `success` key, and the error branch carries no `request_id`
either. -/
def sample_data_resource (env : Env) (data_type : String) : Resp :=
  if !(sampleGenKeys.contains data_type) then
    [("error", .jstr ("Unknown data type: " ++ data_type)),
     ("available_types", .jlist (sampleGenKeys.map (.jstr ·)))]
  else
    let data := sampleItems env data_type
    [("resource_type", .jstr "sample_data"),
     ("data_type", .jstr data_type),
     ("count", .jint (data.length : Int)),
     ("data", .jlist data),
     ("generated_at", .jstr env.now),
     ("request_id", .jstr env.requestId)]

/-!  Helper lemmas. -/

/-- A concrete environment used to instantiate closed statements. -/
def envDemo : Env :=
  { requestId := "req-0", now := "2024-01-01T00:00:00", nowTs := 0,
    nowFmt := "2024-01-01 00:00:00", entropy := fun _ => 0,
    dayStr := fun _ => "2024-01-01" }

/-- Looking up a key that is not among the stored keys fails. -/
theorem lookup_eq_none_of_not_mem {β : Type} (k : String)
    (l : List (String × β)) (h : k ∉ l.map Prod.fst) : List.lookup k l = none := by
  induction l with
  | nil => rfl
  | cons p t ih =>
    simp only [List.map_cons, List.mem_cons] at h
    push_neg at h
    simp only [List.lookup]
    have hb : (k == p.1) = false := by simpa using h.1
    rw [hb]
    exact ih h.2

/-- Looking up a stored key succeeds. -/
theorem lookup_isSome_of_mem {β : Type} (k : String)
    (l : List (String × β)) (h : k ∈ l.map Prod.fst) :
    (List.lookup k l).isSome = true := by
  induction l with
  | nil => simp at h
  | cons p t ih =>
    simp only [List.map_cons, List.mem_cons] at h
    by_cases hk : k = p.1
    · simp [List.lookup, hk]
    · simp only [List.lookup]
      have hb : (k == p.1) = false := by simpa using hk
      rw [hb]
      exact ih (h.resolve_left hk)

/-- `Char.ofNat` of a valid code point round-trips through `toNat`. -/
theorem char_toNat_ofNat (n : Nat) (h : n.isValidChar) :
    (Char.ofNat n).toNat = n := by
  simp [Char.ofNat, h, Char.ofNatAux, Char.toNat, UInt32.toNat, UInt32.ofNatCore]

/-- ASCII uppercasing is idempotent. -/
theorem toUpper_idem (c : Char) : c.toUpper.toUpper = c.toUpper := by
  unfold Char.toUpper
  by_cases h : c.toNat ≥ 97 ∧ c.toNat ≤ 122
  · have hv : (c.toNat - 32).isValidChar := Or.inl (by omega)
    have ht : (Char.ofNat (c.toNat - 32)).toNat = c.toNat - 32 :=
      char_toNat_ofNat _ hv
    rw [if_pos h, if_neg]
    rw [ht]
    omega
  · rw [if_neg h, if_neg h]

/-- ASCII lowercasing is idempotent. -/
theorem toLower_idem (c : Char) : c.toLower.toLower = c.toLower := by
  unfold Char.toLower
  by_cases h : c.toNat ≥ 65 ∧ c.toNat ≤ 90
  · have hv : (c.toNat + 32).isValidChar := Or.inl (by omega)
    have ht : (Char.ofNat (c.toNat + 32)).toNat = c.toNat + 32 :=
      char_toNat_ofNat _ hv
    rw [if_pos h, if_neg]
    rw [ht]
    omega
  · rw [if_neg h, if_neg h]

/-- `pyUpper` is idempotent. -/
theorem pyUpper_idem (s : String) : pyUpper (pyUpper s) = pyUpper s := by
  unfold pyUpper
  have : String.toList ⟨s.toList.map Char.toUpper⟩ = s.toList.map Char.toUpper := rfl
  rw [this, List.map_map]
  congr 1
  exact List.map_congr_left (fun a _ => toUpper_idem a)

/-- `pyLower` is idempotent. -/
theorem pyLower_idem (s : String) : pyLower (pyLower s) = pyLower s := by
  unfold pyLower
  have : String.toList ⟨s.toList.map Char.toLower⟩ = s.toList.map Char.toLower := rfl
  rw [this, List.map_map]
  congr 1
  exact List.map_congr_left (fun a _ => toLower_idem a)

/-- `dropWhile` is idempotent. -/
theorem dropWhile_idem {α : Type} (p : α → Bool) (l : List α) :
    (l.dropWhile p).dropWhile p = l.dropWhile p := by
  induction l with
  | nil => rfl
  | cons a t ih =>
    by_cases hp : p a
    · simp [List.dropWhile, hp, ih]
    · simp [List.dropWhile, hp]

/-- `dropWhile` fixes a list whose head fails the predicate. -/
theorem dropWhile_eq_self_of_head {α : Type} (p : α → Bool) (l : List α)
    (h : ∀ a, l.head? = some a → p a = false) : l.dropWhile p = l := by
  cases l with
  | nil => rfl
  | cons a t => simp [List.dropWhile, h a rfl]

/-- The head surviving `dropWhile` fails the predicate. -/
theorem head_dropWhile_false {α : Type} (p : α → Bool) (l : List α) :
    ∀ a, (l.dropWhile p).head? = some a → p a = false := by
  induction l with
  | nil => intro a h; simp at h
  | cons b t ih =>
    intro a h
    by_cases hp : p b
    · exact ih a (by simpa [List.dropWhile, hp] using h)
    · simp only [List.dropWhile, hp] at h
      simp only [List.head?, Option.some.injEq] at h
      subst h
      simpa using hp

/-- The head of a right-trimmed list is the head of the list. -/
theorem head_rtrim {α : Type} (p : α → Bool) (m : List α) (a : α)
    (h : ((m.reverse.dropWhile p).reverse).head? = some a) : m.head? = some a := by
  obtain ⟨t, ht⟩ := List.dropWhile_suffix (l := m.reverse) p
  have hm : m = (m.reverse.dropWhile p).reverse ++ t.reverse := by
    have h2 := congrArg List.reverse ht
    simpa [List.reverse_append] using h2.symm
  rw [hm]
  cases hd : (m.reverse.dropWhile p).reverse with
  | nil => rw [hd] at h; simp at h
  | cons x w =>
    rw [hd] at h
    simp only [List.head?, Option.some.injEq] at h
    simp [h]

/-- Stripping both ends of a character list is idempotent. -/
theorem pyStripList_idem (l : List Char) :
    pyStripList (pyStripList l) = pyStripList l := by
  unfold pyStripList
  have hA : ((((l.dropWhile pyIsSpace).reverse.dropWhile pyIsSpace).reverse).dropWhile pyIsSpace)
      = ((l.dropWhile pyIsSpace).reverse.dropWhile pyIsSpace).reverse := by
    apply dropWhile_eq_self_of_head
    intro a ha
    exact head_dropWhile_false pyIsSpace l a
      (head_rtrim pyIsSpace (l.dropWhile pyIsSpace) a ha)
  rw [hA, List.reverse_reverse, dropWhile_idem]

/-- `pyStrip` is idempotent. -/
theorem pyStrip_idem (s : String) : pyStrip (pyStrip s) = pyStrip s := by
  show (⟨pyStripList (String.toList ⟨pyStripList s.toList⟩)⟩ : String) = ⟨pyStripList s.toList⟩
  have : String.toList ⟨pyStripList s.toList⟩ = pyStripList s.toList := rfl
  rw [this, pyStripList_idem]

/-!  Envelope-level facts about each handler, shared between the claim
theorems. -/

/-- The base table's keys, in order. -/
theorem stringOpsBase_keys (text : String) :
    (stringOpsBase text).map Prod.fst = stringBaseKeys := rfl

/-- When `replace` was not validly requested, the table is the base
table. -/
theorem stringOpsTable_eq_base (text operation : String)
    (target replacement : Option String)
    (hcond : (operation == "replace" && truthy target && truthy replacement) = false) :
    stringOpsTable text operation target replacement = stringOpsBase text := by
  simp [stringOpsTable, hcond]

/-- The unknown-operation envelope of `string_operations`. -/
theorem string_operations_unknown (env : Env) (text operation : String)
    (target replacement : Option String)
    (hcond : (operation == "replace" && truthy target && truthy replacement) = false)
    (hmem : operation ∉ stringBaseKeys) :
    string_operations env text operation target replacement =
      [("error", .jstr ("Unknown operation: " ++ operation)),
       ("available_operations", .jlist (stringBaseKeys.map (.jstr ·))),
       ("success", .jbool false)] := by
  have ht := stringOpsTable_eq_base text operation target replacement hcond
  have hl : List.lookup operation (stringOpsBase text) = none :=
    lookup_eq_none_of_not_mem _ _ (by rw [stringOpsBase_keys]; exact hmem)
  simp only [string_operations, ht, hl]
  rfl

/-- The success envelope of `string_operations`. -/
theorem string_operations_known (env : Env) (text operation : String)
    (target replacement : Option String) (r : JVal)
    (hr : List.lookup operation (stringOpsTable text operation target replacement) = some r) :
    string_operations env text operation target replacement =
      [("original_text", .jstr text),
       ("operation", .jstr operation),
       ("result", r),
       ("success", .jbool true),
       ("timestamp", .jstr env.now),
       ("request_id", .jstr env.requestId)] := by
  simp only [string_operations, hr]

/-- The unknown-type envelope of `generate_data`. -/
theorem generate_data_unknown (env : Env) (data_type : String) (count : Int)
    (hmem : data_type ∉ genKeys) :
    generate_data env data_type count =
      [("error", .jstr ("Unknown data type: " ++ data_type)),
       ("available_types", .jlist (genKeys.map (.jstr ·))),
       ("success", .jbool false)] := by
  have hc : genKeys.contains data_type = false := by
    simpa using hmem
  simp only [generate_data, hc]
  rfl

/-- The success envelope of `generate_data`. -/
theorem generate_data_known (env : Env) (data_type : String) (count : Int)
    (hmem : data_type ∈ genKeys) :
    generate_data env data_type count =
      (let data := genItems env data_type (if count > 100 then (100 : Int) else count).toNat
       [("data_type", .jstr data_type),
        ("count", .jint (data.length : Int)),
        ("data", .jlist data),
        ("success", .jbool true),
        ("timestamp", .jstr env.now),
        ("request_id", .jstr env.requestId)]) := by
  have hc : genKeys.contains data_type = true := by
    simpa using hmem
  simp only [generate_data, hc]
  rfl

/-- The table keys of `math_operations`, in order. -/
theorem mathOpsTable_keys (numbers : List ℚ) :
    (mathOpsTable numbers).map Prod.fst = mathKeys := rfl

/-- The unknown-operation envelope of `math_operations`. -/
theorem math_operations_unknown (env : Env) (numbers : List ℚ) (operation : String)
    (hne : numbers ≠ []) (hmem : operation ∉ mathKeys) :
    math_operations env numbers operation =
      [("error", .jstr ("Unknown operation: " ++ operation)),
       ("available_operations", .jlist (mathKeys.map (.jstr ·))),
       ("success", .jbool false)] := by
  obtain ⟨x, xs, rfl⟩ : ∃ x xs, numbers = x :: xs := by
    cases numbers with
    | nil => exact absurd rfl hne
    | cons a t => exact ⟨a, t, rfl⟩
  have hl : List.lookup operation (mathOpsTable (x :: xs)) = none :=
    lookup_eq_none_of_not_mem _ _ (by rw [mathOpsTable_keys]; exact hmem)
  simp only [math_operations, List.isEmpty_cons, hl]
  rfl

/-- The success envelope of `math_operations`. -/
theorem math_operations_known (env : Env) (numbers : List ℚ) (operation : String)
    (r : JVal) (hne : numbers ≠ [])
    (hr : List.lookup operation (mathOpsTable numbers) = some r) :
    math_operations env numbers operation =
      [("operation", .jstr operation),
       ("result", r),
       ("input_count", .jint (numbers.length : Int)),
       ("success", .jbool true),
       ("timestamp", .jstr env.now),
       ("request_id", .jstr env.requestId)] := by
  obtain ⟨x, xs, rfl⟩ : ∃ x xs, numbers = x :: xs := by
    cases numbers with
    | nil => exact absurd rfl hne
    | cons a t => exact ⟨a, t, rfl⟩
  simp only [math_operations, List.isEmpty_cons, hr]
  rfl

/-- The table keys of `text_analyzer`, in order. -/
theorem analysesTable_keys (text : String) :
    (analysesTable text).map Prod.fst = analysesKeys := rfl

/-- The unknown-type envelope of `text_analyzer`. -/
theorem text_analyzer_unknown (env : Env) (text analysis_type : String)
    (hmem : analysis_type ∉ analysesKeys) :
    text_analyzer env text analysis_type =
      [("error", .jstr ("Unknown analysis type: " ++ analysis_type)),
       ("available_types", .jlist (analysesKeys.map (.jstr ·))),
       ("success", .jbool false)] := by
  have hl : List.lookup analysis_type (analysesTable text) = none :=
    lookup_eq_none_of_not_mem _ _ (by rw [analysesTable_keys]; exact hmem)
  simp only [text_analyzer, hl]
  rfl

/-- The success envelope of `text_analyzer`. -/
theorem text_analyzer_known (env : Env) (text analysis_type : String)
    (r : JVal) (hr : List.lookup analysis_type (analysesTable text) = some r) :
    text_analyzer env text analysis_type =
      [("analysis_type", .jstr analysis_type),
       ("results", r),
       ("text_preview",
         .jstr (if text.toList.length > 100 then String.mk (text.toList.take 100) ++ "..."
                else text)),
       ("success", .jbool true),
       ("timestamp", .jstr env.now),
       ("request_id", .jstr env.requestId)] := by
  simp only [text_analyzer, hr]

/-- Every generator lambda produces exactly `count` items (an unknown
type produces none). -/
theorem genItems_length_le (env : Env) (data_type : String) (count : Nat) :
    (genItems env data_type count).length ≤ count := by
  unfold genItems
  repeat' split
  all_goals simp

/-- The clamped count of `generate_data` never exceeds 100. -/
theorem clamp_toNat_le (count0 : Int) :
    (if count0 > 100 then (100 : Int) else count0).toNat ≤ 100 := by
  split
  · simp
  · next hc => omega

/-- Claim C2 concerns the median branch of `math_operations`; this is its
result value. -/
theorem mathOpsTable_median (numbers : List ℚ) :
    List.lookup "median" (mathOpsTable numbers) =
      some (.jrat ((pySorted numbers).getD (numbers.length / 2) 0)) := rfl

/-!  The claims. -/

/-- C2: for every non-empty list of numbers, `math_operations` with
operation `median` returns the element at index `length / 2` of the
sorted list (no averaging of the two middle elements for even length);
in particular on `[1, 2, 3, 4]` it returns 3 with `success = true`, and
not the true median 5/2. -/
theorem C2_median_middle_index (env : Env) (numbers : List ℚ)
    (h : numbers ≠ []) :
    List.lookup "result" (math_operations env numbers "median")
        = some (.jrat ((pySorted numbers).getD (numbers.length / 2) 0))
    ∧ List.lookup "success" (math_operations env numbers "median")
        = some (.jbool true)
    ∧ List.lookup "result" (math_operations env [1, 2, 3, 4] "median")
        = some (.jrat 3)
    ∧ (3 : ℚ) ≠ (2 + 3) / 2 := by
  have he := math_operations_known env numbers "median"
    (.jrat ((pySorted numbers).getD (numbers.length / 2) 0)) h
    (mathOpsTable_median numbers)
  refine ⟨by rw [he]; rfl, by rw [he]; rfl, ?_, by norm_num⟩
  have he4 := math_operations_known env [1, 2, 3, 4] "median"
    (.jrat ((pySorted [1, 2, 3, 4]).getD (([1, 2, 3, 4] : List ℚ).length / 2) 0))
    (by simp) (mathOpsTable_median [1, 2, 3, 4])
  have hsort : pySorted [1, 2, 3, 4] = [1, 2, 3, 4] := by
    apply List.mergeSort_of_sorted
    norm_num
  have hval : ((pySorted [1, 2, 3, 4]).getD (([1, 2, 3, 4] : List ℚ).length / 2) 0 : ℚ) = 3 := by
    rw [hsort]
    rfl
  rw [he4, hval]
  rfl

/-- Witness for C2 at the concrete input `[1, 2, 3, 4]`. -/
theorem C2_median_middle_index_witness :
    List.lookup "result" (math_operations envDemo [1, 2, 3, 4] "median")
      = some (.jrat 3) := by
  exact (C2_median_middle_index envDemo [1, 2, 3, 4] (by simp)).2.2.1

/-- C6: `calculate` on the expression `"10 + 5 * 2"` returns
`success = true` and result 20 — standard operator precedence,
delegated to the (modelled) host-language evaluator. -/
theorem C6_calculate_precedence (env : Env) :
    calculate pyEval env "10 + 5 * 2" =
      [("expression", .jstr "10 + 5 * 2"),
       ("result", .jint 20),
       ("type", .jstr "int"),
       ("success", .jbool true),
       ("timestamp", .jstr env.now),
       ("request_id", .jstr env.requestId)] := rfl

/-- C7: `math_operations` on an empty list returns the error envelope
with `success = false` for every operation name, before any statistic is
computed (the envelope does not depend on the operation). -/
theorem C7_empty_rejected (env : Env) (operation : String) :
    math_operations env [] operation =
      [("error", .jstr "No numbers provided"), ("success", .jbool false)] := rfl

/-- C3: `generate_data` returns at most 100 items for every supported
type and requested count; requesting 1000 items of type `numbers`
returns exactly 100 integers in `[1, 1000]` with `success = true`. -/
theorem C3_generate_data_clamped (env : Env) (data_type : String) (count : Int)
    (h : data_type ∈ genKeys) :
    (∃ l, List.lookup "data" (generate_data env data_type count) = some (.jlist l)
        ∧ l.length ≤ 100)
    ∧ (∃ l, List.lookup "data" (generate_data env "numbers" 1000) = some (.jlist l)
        ∧ l.length = 100
        ∧ ∀ v ∈ l, ∃ n : Int, v = .jint n ∧ 1 ≤ n ∧ n ≤ 1000)
    ∧ List.lookup "success" (generate_data env "numbers" 1000)
        = some (.jbool true) := by
  have hnum : ("numbers" : String) ∈ genKeys := by simp [genKeys]
  have he := generate_data_known env data_type count h
  have he1000 := generate_data_known env "numbers" 1000 hnum
  refine ⟨?_, ?_, ?_⟩
  · refine ⟨genItems env data_type (if count > 100 then (100 : Int) else count).toNat,
      by rw [he]; rfl, ?_⟩
    exact le_trans (genItems_length_le env data_type _) (clamp_toNat_le count)
  · refine ⟨genItems env "numbers" 100, by rw [he1000]; rfl, ?_, ?_⟩
    · simp [genItems]
    · intro v hv
      simp only [genItems, beq_self_eq_true, if_true, List.mem_map,
        List.mem_range] at hv
      obtain ⟨i, _, rfl⟩ := hv
      refine ⟨(pyRandintN (env.entropy i) 1 1000 : Nat), rfl, ?_, ?_⟩
      · have : 1 ≤ pyRandintN (env.entropy i) 1 1000 := Nat.le_add_right 1 _
        exact_mod_cast this
      · have hm : env.entropy i % 1000 < 1000 := Nat.mod_lt _ (by norm_num)
        have : pyRandintN (env.entropy i) 1 1000 ≤ 1000 := by
          unfold pyRandintN
          omega
        exact_mod_cast this
  · rw [he1000]
    rfl

/-- Witness for C3 at type `numbers` and requested count 1000. -/
theorem C3_generate_data_clamped_witness :
    ∃ l, List.lookup "data" (generate_data envDemo "numbers" 1000) = some (.jlist l)
      ∧ l.length = 100 := by
  obtain ⟨l, hl, hlen, _⟩ :=
    (C3_generate_data_clamped envDemo "numbers" 1000 (by simp [genKeys])).2.1
  exact ⟨l, hl, hlen⟩

/-- C4: any expression containing a character outside the allow-list is
rejected by `calculate` with `success = false`, and the evaluator is
never consulted: the response is the same for every evaluator. -/
theorem C4_calculate_rejects (evalFn : String → Except String JVal)
    (env : Env) (expression : String)
    (h : ∃ c ∈ expression.toList, c ∉ allowedChars) :
    calculate evalFn env expression =
      [("error", .jstr "Expression contains invalid characters"),
       ("expression", .jstr expression),
       ("success", .jbool false)]
    ∧ ∀ f2 : String → Except String JVal,
        calculate f2 env expression = calculate evalFn env expression := by
  have hall : expression.toList.all (fun c => allowedChars.contains c) = false := by
    obtain ⟨c, hc, hnc⟩ := h
    simp only [List.all_eq_false]
    exact ⟨c, hc, by simpa using hnc⟩
  have henv : ∀ f : String → Except String JVal,
      calculate f env expression =
        [("error", .jstr "Expression contains invalid characters"),
         ("expression", .jstr expression),
         ("success", .jbool false)] := by
    intro f
    simp only [calculate, hall]
    rfl
  exact ⟨henv evalFn, fun f2 => (henv f2).trans (henv evalFn).symm⟩

/-- Witness for C4 at the injection attempt `"2+2;import os"`. -/
theorem C4_calculate_rejects_witness :
    calculate pyEval envDemo "2+2;import os" =
      [("error", .jstr "Expression contains invalid characters"),
       ("expression", .jstr "2+2;import os"),
       ("success", .jbool false)] := by
  exact (C4_calculate_rejects pyEval envDemo "2+2;import os"
    ⟨';', by decide, by decide⟩).1

/-- C5: for each dispatch-table tool, an unknown operation or type name
produces `success = false` together with `available_operations`
(resp. `available_types`) listing exactly the keys of that tool's
dispatch table. -/
theorem C5_unknown_dispatch :
    (∀ (env : Env) (text operation : String) (target replacement : Option String),
      operation ∉ stringBaseKeys ++ ["replace"] →
        string_operations env text operation target replacement =
          [("error", .jstr ("Unknown operation: " ++ operation)),
           ("available_operations", .jlist (stringBaseKeys.map (.jstr ·))),
           ("success", .jbool false)]
        ∧ (stringOpsTable text operation target replacement).map Prod.fst
            = stringBaseKeys)
    ∧ (∀ (env : Env) (data_type : String) (count : Int),
      data_type ∉ genKeys →
        generate_data env data_type count =
          [("error", .jstr ("Unknown data type: " ++ data_type)),
           ("available_types", .jlist (genKeys.map (.jstr ·))),
           ("success", .jbool false)])
    ∧ (∀ (env : Env) (numbers : List ℚ) (operation : String),
      numbers ≠ [] → operation ∉ mathKeys →
        math_operations env numbers operation =
          [("error", .jstr ("Unknown operation: " ++ operation)),
           ("available_operations", .jlist (mathKeys.map (.jstr ·))),
           ("success", .jbool false)]
        ∧ (mathOpsTable numbers).map Prod.fst = mathKeys)
    ∧ (∀ (env : Env) (text analysis_type : String),
      analysis_type ∉ analysesKeys →
        text_analyzer env text analysis_type =
          [("error", .jstr ("Unknown analysis type: " ++ analysis_type)),
           ("available_types", .jlist (analysesKeys.map (.jstr ·))),
           ("success", .jbool false)]) := by
  refine ⟨?_, ?_, ?_, ?_⟩
  · intro env text operation target replacement h
    rw [List.mem_append] at h
    push_neg at h
    have hner : operation ≠ "replace" := by simpa using h.2
    have hcond : (operation == "replace" && truthy target && truthy replacement)
        = false := by
      simp [hner]
    exact ⟨string_operations_unknown env text operation target replacement hcond h.1,
      by rw [stringOpsTable_eq_base text operation target replacement hcond,
        stringOpsBase_keys]⟩
  · intro env data_type count h
    exact generate_data_unknown env data_type count h
  · intro env numbers operation hne h
    exact ⟨math_operations_unknown env numbers operation hne h,
      mathOpsTable_keys numbers⟩
  · intro env text analysis_type h
    exact text_analyzer_unknown env text analysis_type h

/-- Witness for C5: each dispatch tool called with the unknown name
`"bogus"` (and a non-empty number list for `math_operations`). -/
theorem C5_unknown_dispatch_witness :
    string_operations envDemo "abc" "bogus" none none =
      [("error", .jstr "Unknown operation: bogus"),
       ("available_operations", .jlist (stringBaseKeys.map (.jstr ·))),
       ("success", .jbool false)]
    ∧ generate_data envDemo "bogus" 3 =
      [("error", .jstr "Unknown data type: bogus"),
       ("available_types", .jlist (genKeys.map (.jstr ·))),
       ("success", .jbool false)]
    ∧ math_operations envDemo [1] "bogus" =
      [("error", .jstr "Unknown operation: bogus"),
       ("available_operations", .jlist (mathKeys.map (.jstr ·))),
       ("success", .jbool false)]
    ∧ text_analyzer envDemo "abc" "bogus" =
      [("error", .jstr "Unknown analysis type: bogus"),
       ("available_types", .jlist (analysesKeys.map (.jstr ·))),
       ("success", .jbool false)] := by
  refine ⟨(C5_unknown_dispatch.1 envDemo "abc" "bogus" none none (by decide)).1,
    C5_unknown_dispatch.2.1 envDemo "bogus" 3 (by decide),
    (C5_unknown_dispatch.2.2.1 envDemo [1] "bogus" (by simp) (by decide)).1,
    C5_unknown_dispatch.2.2.2 envDemo "abc" "bogus" (by decide)⟩

/-- C8: for the idempotent operations `upper`, `lower` and `strip`,
applying `string_operations` to its own result yields the same result as
applying it once. -/
theorem C8_idempotent_operations (env : Env) (text : String) :
    (List.lookup "result" (string_operations env text "upper" none none)
        = some (.jstr (pyUpper text))
      ∧ List.lookup "result" (string_operations env (pyUpper text) "upper" none none)
        = some (.jstr (pyUpper text)))
    ∧ (List.lookup "result" (string_operations env text "lower" none none)
        = some (.jstr (pyLower text))
      ∧ List.lookup "result" (string_operations env (pyLower text) "lower" none none)
        = some (.jstr (pyLower text)))
    ∧ (List.lookup "result" (string_operations env text "strip" none none)
        = some (.jstr (pyStrip text))
      ∧ List.lookup "result" (string_operations env (pyStrip text) "strip" none none)
        = some (.jstr (pyStrip text))) := by
  refine ⟨⟨rfl, ?_⟩, ⟨rfl, ?_⟩, ⟨rfl, ?_⟩⟩
  · have h1 : List.lookup "result" (string_operations env (pyUpper text) "upper" none none)
        = some (.jstr (pyUpper (pyUpper text))) := rfl
    rw [h1, pyUpper_idem]
  · have h1 : List.lookup "result" (string_operations env (pyLower text) "lower" none none)
        = some (.jstr (pyLower (pyLower text))) := rfl
    rw [h1, pyLower_idem]
  · have h1 : List.lookup "result" (string_operations env (pyStrip text) "strip" none none)
        = some (.jstr (pyStrip (pyStrip text))) := rfl
    rw [h1, pyStrip_idem]

/-- C9: `inspect_request` returns the request's method, URL, path and
query parameters, and its returned header mapping has no key whose
lowercased name contains `authorization`, `cookie` or `token`. -/
theorem C9_inspect_request_filters (env : Env) (req : HttpRequest) :
    (∃ hs, List.lookup "headers" (inspect_request env (some req)) = some (.jdict hs)
      ∧ ∀ k v, (k, v) ∈ hs →
          strContainsSub "authorization" (pyLower k) = false
          ∧ strContainsSub "cookie" (pyLower k) = false
          ∧ strContainsSub "token" (pyLower k) = false)
    ∧ List.lookup "method" (inspect_request env (some req)) = some (.jstr req.method)
    ∧ List.lookup "url" (inspect_request env (some req)) = some (.jstr req.url)
    ∧ List.lookup "path" (inspect_request env (some req)) = some (.jstr req.path)
    ∧ List.lookup "query_params" (inspect_request env (some req))
        = some (.jdict (req.queryParams.map (fun kv => (kv.1, .jstr kv.2)))) := by
  refine ⟨?_, rfl, rfl, rfl, rfl⟩
  refine ⟨_, rfl, ?_⟩
  intro k v hkv
  rw [List.mem_map] at hkv
  obtain ⟨kv, hmem, heq⟩ := hkv
  rw [List.mem_filter] at hmem
  have hk : k = kv.1 := by
    have := congrArg Prod.fst heq
    simpa using this.symm
  have hsens : sensitiveHeader kv.1 = false := by
    have := hmem.2
    simpa using this
  rw [hk]
  have := hsens
  unfold sensitiveHeader at this
  simp only [Bool.or_eq_false_iff] at this
  exact ⟨this.1.1, this.1.2, this.2⟩

/-- C10: `string_operations` with operation `replace` falls into the
unknown-operation error envelope whenever `target` is omitted or
`replacement` is omitted or empty (Python truthiness treats `""` as
absent), and `replace` is not among the listed available operations —
so replacing a substring with the empty string is impossible. -/
theorem C10_replace_requires_args (env : Env) (text : String)
    (target replacement : Option String)
    (h : target = none ∨ replacement = none ∨ replacement = some "") :
    string_operations env text "replace" target replacement =
      [("error", .jstr "Unknown operation: replace"),
       ("available_operations", .jlist (stringBaseKeys.map (.jstr ·))),
       ("success", .jbool false)]
    ∧ "replace" ∉ stringBaseKeys := by
  have hcond : (("replace" : String) == "replace" && truthy target && truthy replacement)
      = false := by
    rcases h with h | h | h <;> subst h
    · simp [truthy]
    · simp [truthy]
    · simp only [truthy]
      have : ("" : String).isEmpty = true := rfl
      simp [this]
  refine ⟨?_, by decide⟩
  exact string_operations_unknown env text "replace" target replacement hcond (by decide)

/-- Witness for C10: an explicit replacement by the empty string. -/
theorem C10_replace_requires_args_witness :
    string_operations envDemo "abc" "replace" (some "b") (some "") =
      [("error", .jstr "Unknown operation: replace"),
       ("available_operations", .jlist (stringBaseKeys.map (.jstr ·))),
       ("success", .jbool false)] := by
  exact (C10_replace_requires_args envDemo "abc" (some "b") (some "")
    (Or.inr (Or.inr rfl))).1

/-- The invalid-characters envelope of `calculate` (no `request_id`). -/
theorem calculate_invalid (f : String → Except String JVal) (env : Env)
    (e : String)
    (hall : e.toList.all (fun c => allowedChars.contains c) = false) :
    calculate f env e =
      [("error", .jstr "Expression contains invalid characters"),
       ("expression", .jstr e),
       ("success", .jbool false)] := by
  simp only [calculate, hall]
  rfl

/-- The success envelope of `calculate`. -/
theorem calculate_ok (f : String → Except String JVal) (env : Env)
    (e : String) (v : JVal)
    (hall : e.toList.all (fun c => allowedChars.contains c) = true)
    (hv : f e = .ok v) :
    calculate f env e =
      [("expression", .jstr e),
       ("result", v),
       ("type", .jstr v.typeName),
       ("success", .jbool true),
       ("timestamp", .jstr env.now),
       ("request_id", .jstr env.requestId)] := by
  simp only [calculate, hall, hv]
  rfl

/-- The caught-exception envelope of `calculate` (has `request_id`). -/
theorem calculate_err (f : String → Except String JVal) (env : Env)
    (e msg : String)
    (hall : e.toList.all (fun c => allowedChars.contains c) = true)
    (hv : f e = .error msg) :
    calculate f env e =
      [("error", .jstr msg),
       ("expression", .jstr e),
       ("success", .jbool false),
       ("request_id", .jstr env.requestId)] := by
  simp only [calculate, hall, hv]
  rfl

/-- C1 counterexample: the claim that every tool and resource response
contains both `success` and `request_id` is false on the code —
`get_current_time`'s response has no `success` key at all, and
`string_operations`' unknown-operation error envelope has no
`request_id`. -/
theorem C1_counterexample :
    List.lookup "success" (get_current_time envDemo "UTC") = none
    ∧ List.lookup "request_id" (string_operations envDemo "abc" "bogus" none none)
        = none := ⟨rfl, rfl⟩

/-- C1 (amended): every modelled tool error response sets
`success = false`; the shared dispatch tools' success responses carry
`success = true` and `request_id`; but the validation-error envelopes
(invalid characters, unknown operation/type, empty input) omit
`request_id`, the responses of `get_current_time`, `get_weather` and the
success path of `inspect_request` omit `success` (while carrying
`request_id`), and the sample-data resource's unknown-type response
carries neither key. -/
theorem C1_envelope_keys :
    (∀ (f : String → Except String JVal) (env : Env) (e : String),
      (∃ c ∈ e.toList, c ∉ allowedChars) →
        List.lookup "success" (calculate f env e) = some (.jbool false)
        ∧ List.lookup "request_id" (calculate f env e) = none)
    ∧ (∀ (f : String → Except String JVal) (env : Env) (e : String) (v : JVal),
      (∀ c ∈ e.toList, c ∈ allowedChars) → f e = .ok v →
        List.lookup "success" (calculate f env e) = some (.jbool true)
        ∧ List.lookup "request_id" (calculate f env e) = some (.jstr env.requestId))
    ∧ (∀ (f : String → Except String JVal) (env : Env) (e msg : String),
      (∀ c ∈ e.toList, c ∈ allowedChars) → f e = .error msg →
        List.lookup "success" (calculate f env e) = some (.jbool false)
        ∧ List.lookup "request_id" (calculate f env e) = some (.jstr env.requestId))
    ∧ (∀ (env : Env) (text op : String) (tgt rep : Option String),
      op ∉ stringBaseKeys ++ ["replace"] →
        List.lookup "success" (string_operations env text op tgt rep)
          = some (.jbool false)
        ∧ List.lookup "request_id" (string_operations env text op tgt rep) = none)
    ∧ (∀ (env : Env) (text op : String) (tgt rep : Option String) (r : JVal),
      List.lookup op (stringOpsTable text op tgt rep) = some r →
        List.lookup "success" (string_operations env text op tgt rep)
          = some (.jbool true)
        ∧ List.lookup "request_id" (string_operations env text op tgt rep)
          = some (.jstr env.requestId))
    ∧ (∀ (env : Env) (dt : String) (c : Int),
      (dt ∉ genKeys →
        List.lookup "success" (generate_data env dt c) = some (.jbool false)
        ∧ List.lookup "request_id" (generate_data env dt c) = none)
      ∧ (dt ∈ genKeys →
        List.lookup "success" (generate_data env dt c) = some (.jbool true)
        ∧ List.lookup "request_id" (generate_data env dt c)
          = some (.jstr env.requestId)))
    ∧ (∀ (env : Env) (op : String),
      List.lookup "success" (math_operations env [] op) = some (.jbool false)
      ∧ List.lookup "request_id" (math_operations env [] op) = none)
    ∧ (∀ (env : Env) (ns : List ℚ) (op : String), ns ≠ [] →
      (op ∉ mathKeys →
        List.lookup "success" (math_operations env ns op) = some (.jbool false)
        ∧ List.lookup "request_id" (math_operations env ns op) = none)
      ∧ (op ∈ mathKeys →
        List.lookup "success" (math_operations env ns op) = some (.jbool true)
        ∧ List.lookup "request_id" (math_operations env ns op)
          = some (.jstr env.requestId)))
    ∧ (∀ (env : Env) (text aty : String),
      (aty ∉ analysesKeys →
        List.lookup "success" (text_analyzer env text aty) = some (.jbool false)
        ∧ List.lookup "request_id" (text_analyzer env text aty) = none)
      ∧ (aty ∈ analysesKeys →
        List.lookup "success" (text_analyzer env text aty) = some (.jbool true)
        ∧ List.lookup "request_id" (text_analyzer env text aty)
          = some (.jstr env.requestId)))
    ∧ (∀ (env : Env) (tz : String),
      List.lookup "success" (get_current_time env tz) = none
      ∧ List.lookup "request_id" (get_current_time env tz)
        = some (.jstr env.requestId))
    ∧ (∀ (env : Env) (loc u : String),
      List.lookup "success" (get_weather env loc u) = none
      ∧ List.lookup "request_id" (get_weather env loc u)
        = some (.jstr env.requestId))
    ∧ (∀ (env : Env) (req : HttpRequest),
      List.lookup "success" (inspect_request env (some req)) = none
      ∧ List.lookup "request_id" (inspect_request env (some req))
        = some (.jstr env.requestId))
    ∧ (∀ env : Env,
      List.lookup "success" (inspect_request env none) = some (.jbool false)
      ∧ List.lookup "request_id" (inspect_request env none)
        = some (.jstr env.requestId))
    ∧ (∀ (env : Env) (dt : String), dt ∉ sampleGenKeys →
      List.lookup "success" (sample_data_resource env dt) = none
      ∧ List.lookup "request_id" (sample_data_resource env dt) = none) := by
  refine ⟨?_, ?_, ?_, ?_, ?_, ?_, ?_, ?_, ?_, ?_, ?_, ?_, ?_, ?_⟩
  · intro f env e h
    have hall : e.toList.all (fun c => allowedChars.contains c) = false := by
      obtain ⟨c, hc, hnc⟩ := h
      simp only [List.all_eq_false]
      exact ⟨c, hc, by simpa using hnc⟩
    rw [calculate_invalid f env e hall]
    exact ⟨rfl, rfl⟩
  · intro f env e v h hv
    have hall : e.toList.all (fun c => allowedChars.contains c) = true := by
      rw [List.all_eq_true]
      intro c hc
      simpa using h c hc
    rw [calculate_ok f env e v hall hv]
    exact ⟨rfl, rfl⟩
  · intro f env e msg h hv
    have hall : e.toList.all (fun c => allowedChars.contains c) = true := by
      rw [List.all_eq_true]
      intro c hc
      simpa using h c hc
    rw [calculate_err f env e msg hall hv]
    exact ⟨rfl, rfl⟩
  · intro env text op tgt rep h
    rw [List.mem_append] at h
    push_neg at h
    have hner : op ≠ "replace" := by simpa using h.2
    have hcond : (op == "replace" && truthy tgt && truthy rep) = false := by
      simp [hner]
    rw [string_operations_unknown env text op tgt rep hcond h.1]
    exact ⟨rfl, rfl⟩
  · intro env text op tgt rep r hr
    rw [string_operations_known env text op tgt rep r hr]
    exact ⟨rfl, rfl⟩
  · intro env dt c
    constructor
    · intro h
      rw [generate_data_unknown env dt c h]
      exact ⟨rfl, rfl⟩
    · intro h
      rw [generate_data_known env dt c h]
      exact ⟨rfl, rfl⟩
  · intro env op
    exact ⟨rfl, rfl⟩
  · intro env ns op hne
    constructor
    · intro h
      rw [math_operations_unknown env ns op hne h]
      exact ⟨rfl, rfl⟩
    · intro h
      have hs : (List.lookup op (mathOpsTable ns)).isSome = true :=
        lookup_isSome_of_mem op (mathOpsTable ns)
          (by rw [mathOpsTable_keys]; exact h)
      obtain ⟨r, hr⟩ := Option.isSome_iff_exists.mp hs
      rw [math_operations_known env ns op r hne hr]
      exact ⟨rfl, rfl⟩
  · intro env text aty
    constructor
    · intro h
      rw [text_analyzer_unknown env text aty h]
      exact ⟨rfl, rfl⟩
    · intro h
      have hs : (List.lookup aty (analysesTable text)).isSome = true :=
        lookup_isSome_of_mem aty (analysesTable text)
          (by rw [analysesTable_keys]; exact h)
      obtain ⟨r, hr⟩ := Option.isSome_iff_exists.mp hs
      rw [text_analyzer_known env text aty r hr]
      exact ⟨rfl, rfl⟩
  · intro env tz
    exact ⟨rfl, rfl⟩
  · intro env loc u
    exact ⟨rfl, rfl⟩
  · intro env req
    exact ⟨rfl, rfl⟩
  · intro env
    exact ⟨rfl, rfl⟩
  · intro env dt h
    have hc : sampleGenKeys.contains dt = false := by simpa using h
    have he : sample_data_resource env dt =
        [("error", .jstr ("Unknown data type: " ++ dt)),
         ("available_types", .jlist (sampleGenKeys.map (.jstr ·)))] := by
      simp only [sample_data_resource, hc]
      rfl
    rw [he]
    exact ⟨rfl, rfl⟩

/-- Witness for C1 (amended), discharging each hypothesis at concrete
inputs. -/
theorem C1_envelope_keys_witness :
    List.lookup "success" (calculate pyEval envDemo "2+2;import os")
        = some (.jbool false)
    ∧ List.lookup "request_id" (calculate pyEval envDemo "10 + 5 * 2")
        = some (.jstr "req-0")
    ∧ List.lookup "success" (calculate pyEval envDemo "1/0") = some (.jbool false)
    ∧ List.lookup "request_id" (string_operations envDemo "abc" "bogus" none none)
        = none
    ∧ List.lookup "success" (string_operations envDemo "abc" "upper" none none)
        = some (.jbool true)
    ∧ List.lookup "request_id" (generate_data envDemo "bogus" 3) = none
    ∧ List.lookup "success" (generate_data envDemo "numbers" 3)
        = some (.jbool true)
    ∧ List.lookup "request_id" (math_operations envDemo [1] "bogus") = none
    ∧ List.lookup "success" (math_operations envDemo [1] "sum")
        = some (.jbool true)
    ∧ List.lookup "request_id" (text_analyzer envDemo "abc" "bogus") = none
    ∧ List.lookup "success" (text_analyzer envDemo "abc" "basic")
        = some (.jbool true)
    ∧ List.lookup "success" (sample_data_resource envDemo "bogus") = none := by
  have h := C1_envelope_keys
  refine ⟨(h.1 pyEval envDemo "2+2;import os" ⟨';', by decide, by decide⟩).1,
    (h.2.1 pyEval envDemo "10 + 5 * 2" (.jint 20) (by decide) rfl).2,
    (h.2.2.1 pyEval envDemo "1/0" "division by zero" (by decide) rfl).1,
    (h.2.2.2.1 envDemo "abc" "bogus" none none (by decide)).2,
    (h.2.2.2.2.1 envDemo "abc" "upper" none none (.jstr (pyUpper "abc")) rfl).1,
    ((h.2.2.2.2.2.1 envDemo "bogus" 3).1 (by decide)).2,
    ((h.2.2.2.2.2.1 envDemo "numbers" 3).2 (by decide)).1,
    ((h.2.2.2.2.2.2.2.1 envDemo [1] "bogus" (by simp)).1 (by decide)).2,
    ((h.2.2.2.2.2.2.2.1 envDemo [1] "sum" (by simp)).2 (by decide)).1,
    ((h.2.2.2.2.2.2.2.2.1 envDemo "abc" "bogus").1 (by decide)).2,
    ((h.2.2.2.2.2.2.2.2.1 envDemo "abc" "basic").2 (by decide)).1,
    (h.2.2.2.2.2.2.2.2.2.2.2.2.2 envDemo "bogus" (by decide)).1⟩
